import Mathlib

/-!
Verification development for the PriceGoUpBot volume engine and sweeper.

The definitions below are a shallow embedding of the TypeScript source:
the VolumeEngineService (task scheduler), the SweeperService (payment
sweep and fee split), the PaymentService cost calculator, and the wallet
derivation helpers. JavaScript numbers are modelled as rationals, lamport
balances as integers, ed25519 key derivation as an inductive address type
that records the provenance of each address (HKDF context versus random
generation versus configured value), and every fallible operation returns
an explicit result constructor.
-/

namespace PriceGoUpBot

/-- Provenance-tracking model of a Solana public key. An address is either
derived via HKDF-SHA256 from the master secret with a given info label and
salt (Keypair.fromSeed over hkdf output), freshly generated from randomness
(Keypair.generate), or an externally configured value (environment
variable). Distinct constructors and distinct derivation contexts model
distinct public keys, which holds with overwhelming probability for the
cryptographic primitives used. -/
inductive Address where
  | derived (info : String) (salt : String)
  | generated (entropy : Nat)
  | externalAddr (s : String)
deriving DecidableEq, Repr

/-- Order lifecycle states from OrderStatus in interfaces. -/
inductive OrderStatus where
  | pendingPayment
  | paymentConfirmed
  | running
  | completed
  | cancelled
  | failed
  | expired
deriving DecidableEq, Repr

/-- Task lifecycle states from TaskStatus in interfaces. -/
inductive TaskStatus where
  | pending
  | running
  | completed
  | failed
deriving DecidableEq, Repr

/-- Transaction type recorded per trade leg. -/
inductive TxType where
  | buy
  | sell
deriving DecidableEq, Repr

/-- An on-chain SystemProgram.transfer, recorded as source, target and
lamport amount. -/
structure Transfer where
  source : Address
  target : Address
  lamports : ℚ
deriving DecidableEq, Repr

/-- deriveTradingKeypair in VolumeEngineService: HKDF with empty salt and
info string "task-" followed by the task id. -/
def deriveTradingKeypair (taskId : String) : Address :=
  Address.derived ("task-" ++ taskId) ""

/-- derivePaymentKeypair in VolumeOrderService: HKDF with salt equal to the
order id and info "pricegoupbot:payment". -/
def derivePaymentAddress (orderId : String) : Address :=
  Address.derived "pricegoupbot:payment" orderId

/-- derivePerOrderBudgetAddress in the admin fund-budget route (same
derivation the engine requests through deriveOpsBudgetKeypair): HKDF with
salt equal to the order id and info "pricegoupbot:ops-budget". -/
def opsBudgetAddress (orderId : String) : Address :=
  Address.derived "pricegoupbot:ops-budget" orderId

/-- deriveTreasuryOpsKeypair: HKDF with empty salt and info
"treasury-operations"; this is how the configured global operations
treasury address is produced. -/
def treasuryOpsDerived : Address :=
  Address.derived "treasury-operations" ""

/-- The global fees treasury address, produced with info "treasury-fees"
and empty salt. -/
def treasuryFeesDerived : Address :=
  Address.derived "treasury-fees" ""

/-- Model of the JavaScript String.prototype.includes check: pat occurs as
a contiguous substring of s. -/
def containsSub (s pat : String) : Bool :=
  s.data.tails.any (fun t => pat.data.isPrefixOf t)

theorem containsSub_of_append (pre post : String) :
    containsSub (pre ++ post) pre = true := by
  unfold containsSub
  rw [List.any_eq_true]
  refine ⟨(pre ++ post).data, ?_, ?_⟩
  · exact (List.mem_tails _ _).mpr (List.suffix_refl _)
  · rw [List.isPrefixOf_iff_prefix]
    show pre.data <+: (pre ++ post).data
    have h : (pre ++ post).data = pre.data ++ post.data := rfl
    rw [h]
    exact List.prefix_append _ _

/-- The fields of a volume_orders row that the scheduler and sweeper read. -/
structure VolumeOrder where
  id : String
  status : OrderStatus
  volume_target : ℚ
  duration_hours : ℚ
  tasks_count : Nat
  total_cost : ℚ
  payment_address : Option Address
  payment_signature : Option String
deriving DecidableEq, Repr

/-- The fields of a volume_tasks row written by createVolumeTasks and
mutated by processOrderTasks. -/
structure VolumeTask where
  order_id : String
  wallet_address : Address
  status : TaskStatus
  target_volume : ℚ
  current_volume : ℚ
  interval_minutes : ℤ
  cycles_completed : Nat
  total_cycles : Nat
deriving DecidableEq, Repr

/-- createVolumeTasks in VolumeEngineService. For each of tasks_count task
slots it calls Keypair.generate (modelled by drawing from the entropy
stream) and stores that wallet address, a pending status, an equal split of
the volume target, an interval of max 1 (floor (duration_hours * 60 /
(tasks_count * 5))) minutes, zero completed cycles and total_cycles 5. -/
def createVolumeTasks (order : VolumeOrder) (entropy : Nat → Nat) :
    List VolumeTask :=
  (List.range order.tasks_count).map (fun i =>
    { order_id := order.id
      wallet_address := Address.generated (entropy i)
      status := TaskStatus.pending
      target_volume := order.volume_target / (order.tasks_count : ℚ)
      current_volume := 0
      interval_minutes :=
        max 1 ⌊order.duration_hours * 60 / ((order.tasks_count : ℚ) * 5)⌋
      cycles_completed := 0
      total_cycles := 5 })

/-- One scheduler tick applied to a single task inside processOrderTasks.
The outcome argument abstracts the external world: none means the task was
not due (shouldExecuteTask returned false), some true means
executeBuySellCycle returned, some false means it threw. Completed tasks
are skipped by the continue statement before any execution. On success the
cycle counter is incremented, current_volume is recomputed proportionally
and the status becomes completed exactly when the new counter reaches
total_cycles; on failure the status becomes failed and the counter is
untouched. -/
def tickTask (t : VolumeTask) (outcome : Option Bool) : VolumeTask :=
  match outcome with
  | none => t
  | some success =>
    if t.status = TaskStatus.completed then t
    else if success then
      let n := t.cycles_completed + 1
      { t with
        cycles_completed := n
        current_volume := t.target_volume * ((n : ℚ) / (t.total_cycles : ℚ))
        status :=
          if t.total_cycles ≤ n then TaskStatus.completed
          else TaskStatus.running }
    else { t with status := TaskStatus.failed }

/-- The per-task invariant asserted by the spec: the cycle counter is
bounded by total_cycles and the task is completed exactly when the bound is
attained. -/
def TaskInv (t : VolumeTask) : Prop :=
  t.cycles_completed ≤ t.total_cycles ∧
    (t.status = TaskStatus.completed ↔ t.cycles_completed = t.total_cycles)

instance (t : VolumeTask) : Decidable (TaskInv t) := by
  unfold TaskInv; infer_instance

/-- stopVolumeGeneration in VolumeEngineService: the order is marked
completed and every still-running task is forced to completed; tasks in
other states are left alone. -/
def forceCompleteRunning (tasks : List VolumeTask) : List VolumeTask :=
  tasks.map (fun t =>
    if t.status = TaskStatus.running then { t with status := TaskStatus.completed }
    else t)

/-- processOrderTasks in VolumeEngineService, for one order. Orders that
are not running are skipped. If the stored task list is empty the tasks are
created on the spot (self-healing). Each task is then ticked with its
outcome, and if afterwards every task is completed the order is stopped via
stopVolumeGeneration (order status completed, running tasks forced to
completed) and the pass reports the order as completed. Returns the updated
order, the updated task list and the orderCompleted flag. -/
def processOrderTasks (order : VolumeOrder) (tasks : List VolumeTask)
    (entropy : Nat → Nat) (outcomes : Nat → Option Bool) :
    VolumeOrder × List VolumeTask × Bool :=
  if order.status ≠ OrderStatus.running then (order, tasks, false)
  else
    let tasks0 := if tasks.isEmpty then createVolumeTasks order entropy else tasks
    let ticked := tasks0.mapIdx (fun i t => tickTask t (outcomes i))
    if ticked.all (fun t => t.status = TaskStatus.completed) then
      ({ order with status := OrderStatus.completed },
        forceCompleteRunning ticked, true)
    else (order, ticked, false)

/-- ensureTradingWalletFunded in VolumeEngineService (per-order budget
version). If the trading wallet already holds requiredLamports nothing
happens. Otherwise the transferable amount is capped at the budget balance
minus a 5000000 lamport buffer, toFund = min (shortfall, cap); if toFund is
not positive the call throws the insufficient-budget error, else exactly
toFund lamports are moved from the per-order budget wallet to the trading
wallet. All balances are integer lamports. -/
def ensureTradingWalletFunded (orderId : String) (tradingWallet : Address)
    (currentBalance requiredLamports budgetBalance : ℤ) :
    Except String (List Transfer) :=
  if currentBalance < requiredLamports then
    let maxFund := max 0 (budgetBalance - 5000000)
    let toFund := min (requiredLamports - currentBalance) maxFund
    if toFund ≤ 0 then
      Except.error "Insufficient per-order budget to fund trading wallet"
    else
      Except.ok [⟨opsBudgetAddress orderId, tradingWallet, (toFund : ℚ)⟩]
  else Except.ok []

/-- The action a tick takes in executeBuySellCycle. -/
inductive TickAction where
  | sellAll (amountTokens : ℤ)
  | buyTrade
deriving DecidableEq, Repr

/-- The buy-or-sell decision at the top of executeBuySellCycle: preferSell
is tokenBalance > 0, lastWasBuy is that the most recent recorded
transaction of the task has type buy, and a sell of floor (tokenBalance)
tokens happens exactly when both hold; otherwise the tick buys. lastTx is
the head of the transaction list ordered most recent first. -/
def chooseTickAction (tokenBalance : ℚ) (lastTx : Option TxType) : TickAction :=
  if 0 < tokenBalance ∧ lastTx = some TxType.buy then TickAction.sellAll ⌊tokenBalance⌋
  else TickAction.buyTrade

/-- External inputs to one sweepOrderPayment call: the configured treasury
addresses, fee rate and sweep threshold (None models an unset environment
variable, defaulted in the code), the current lamport balance of the
payment address, and the outcome of each transfer leg (the signature on
success, the thrown message on failure). -/
structure SweepEnv where
  treasuryFeesAddr : Option Address
  treasuryOpsAddr : Option Address
  feeBps : Option ℚ
  minSweepLamports : Option ℚ
  balance : ℚ
  feesLeg : Except String String
  opsLeg : Except String String
deriving Repr

/-- Result of sweepOrderPayment: skipped models a false return (no
transfer performed), swept models a true return together with the updated
order row and the transfers that were sent, failed models a thrown error
together with the transfers already sent before the throw (the order row is
not updated on that path). -/
inductive SweepResult where
  | skipped (order : VolumeOrder)
  | swept (order : VolumeOrder) (transfers : List Transfer)
  | failed (err : String) (order : VolumeOrder) (transfers : List Transfer)
deriving DecidableEq, Repr

/-- The transfers actually sent during the call. -/
def sweepTransfers : SweepResult → List Transfer
  | SweepResult.skipped _ => []
  | SweepResult.swept _ ts => ts
  | SweepResult.failed _ _ ts => ts

/-- Whether sweepOrderPayment returned true (counted into the swept total
of the pass). -/
def sweepReturnedTrue : SweepResult → Bool
  | SweepResult.swept _ _ => true
  | _ => false

/-- Payment-keypair resolution in sweepOrderPayment: when a stored
payment_address other than TEMP exists, the keypair re-derived from the
order id must match it, otherwise the order is skipped as a legacy or
foreign address; without a usable stored address both the address and the
keypair are derived from the order id. -/
def resolvePaymentKeypair (order : VolumeOrder) : Option Address :=
  match order.payment_address with
  | some a =>
    if a ≠ Address.externalAddr "TEMP" then
      if derivePaymentAddress order.id = a then some a else none
    else some (derivePaymentAddress order.id)
  | none => some (derivePaymentAddress order.id)

/-- sweepOrderPayment in SweeperService. Guards in source order: the
receipt marker check (payment_signature containing the text fees:), the
terminal-status check, address resolution, the minimum-sweep threshold
(default 1000000 lamports), the expected-payment check with one percent
tolerance. Then serviceFeeAmount = floor (balance * (feeBps or 500) /
10000) goes to the configured fees treasury and opsAmount = balance -
serviceFeeAmount - 10000 goes to the configured operations treasury, each
leg sent by sendToTreasury which throws when its treasury address is
unset. Only after both legs succeed is the order updated to
payment_confirmed with receipt fees:sig1,ops:sig2. -/
def sweepOrderPayment (env : SweepEnv) (order : VolumeOrder) : SweepResult :=
  if (match order.payment_signature with
      | some s => containsSub s "fees:"
      | none => false) then
    SweepResult.skipped order
  else if order.status = OrderStatus.completed ∨
      order.status = OrderStatus.cancelled ∨
      order.status = OrderStatus.failed then
    SweepResult.skipped order
  else
    match resolvePaymentKeypair order with
    | none => SweepResult.skipped order
    | some payAddr =>
      if env.balance < env.minSweepLamports.getD 1000000 then
        SweepResult.skipped order
      else
        let expectedLamports : ℤ := ⌊order.total_cost * 1000000000⌋
        if env.balance < (expectedLamports : ℚ) * (99 / 100) then
          SweepResult.skipped order
        else
          let serviceFeeRate : ℚ := env.feeBps.getD 500 / 10000
          let serviceFeeAmount : ℚ := (⌊env.balance * serviceFeeRate⌋ : ℚ)
          let opsAmount : ℚ := env.balance - serviceFeeAmount - 10000
          match env.treasuryFeesAddr with
          | none =>
            SweepResult.failed "Treasury address for fees not configured" order []
          | some feesAddr =>
            match env.feesLeg with
            | Except.error e => SweepResult.failed e order []
            | Except.ok feesSig =>
              match env.treasuryOpsAddr with
              | none =>
                SweepResult.failed "Treasury address for operations not configured"
                  order [⟨payAddr, feesAddr, serviceFeeAmount⟩]
              | some opsAddr =>
                match env.opsLeg with
                | Except.error e =>
                  SweepResult.failed e order [⟨payAddr, feesAddr, serviceFeeAmount⟩]
                | Except.ok opsSig =>
                  SweepResult.swept
                    { order with
                      status := OrderStatus.paymentConfirmed
                      payment_signature :=
                        some ("fees:" ++ feesSig ++ ",ops:" ++ opsSig) }
                    [⟨payAddr, feesAddr, serviceFeeAmount⟩,
                     ⟨payAddr, opsAddr, opsAmount⟩]

/-- getDurationFactor in PaymentService: the duration table 2.0 / 1.5 /
1.2 / 1.0 / 0.8 for at most 6 / 12 / 24 / 72 hours and beyond. -/
def getDurationFactor (hours : ℚ) : ℚ :=
  if hours ≤ 6 then 2
  else if hours ≤ 12 then 3 / 2
  else if hours ≤ 24 then 6 / 5
  else if hours ≤ 72 then 1
  else 4 / 5

/-- calculateTasksCount in PaymentService: ceil (12 * volume in millions),
scaled by the duration factor with another ceiling, at least 1. -/
def calculateTasksCount (volume duration : ℚ) : ℤ :=
  let volumeInMillions := volume / 1000000
  let durationFactor := getDurationFactor duration
  let baseTasks : ℤ := ⌈12 * volumeInMillions⌉
  let totalTasks : ℤ := ⌈(baseTasks : ℚ) * durationFactor⌉
  max 1 totalTasks

/-- calculateOrderCost in PaymentService: the task count, the base cost
per task of 1.5 SOL from volumeBotSettings, and the total cost rounded to
two decimals (Math.round semantics, half away from the floor). -/
def calculateOrderCost (volume duration : ℚ) : ℤ × ℚ × ℚ :=
  let tasksCount := calculateTasksCount volume duration
  let costPerTask : ℚ := 3 / 2
  let totalCost : ℚ := (tasksCount : ℚ) * costPerTask
  (tasksCount, costPerTask, (round (totalCost * 100) : ℚ) / 100)

/-- A positivity and antitonicity helper for the duration table. -/
theorem getDurationFactor_nonneg (d : ℚ) : 0 ≤ getDurationFactor d := by
  unfold getDurationFactor
  split_ifs <;> norm_num

/-- The duration-factor table is antitone: a longer duration never yields a
larger factor. -/
theorem getDurationFactor_antitone (d1 d2 : ℚ) (h : d1 ≤ d2) :
    getDurationFactor d2 ≤ getDurationFactor d1 := by
  unfold getDurationFactor
  split_ifs <;> linarith

/-- C9. calculateOrderCost returns a task count of at least 1 with the
total cost exactly tasksCount times the per-task cost; the task count is
non-decreasing in the volume target and non-increasing in the duration via
the monotone duration-factor table; and the scenario volume 1000000 over
24 hours yields 15 tasks at 1.5 SOL each for a total of 22.5 SOL. -/
theorem calculateOrderCost_spec :
    (∀ v d : ℚ,
      1 ≤ (calculateOrderCost v d).1 ∧
      (calculateOrderCost v d).2.2 =
        ((calculateOrderCost v d).1 : ℚ) * (calculateOrderCost v d).2.1) ∧
    (∀ v1 v2 d : ℚ, v1 ≤ v2 →
      calculateTasksCount v1 d ≤ calculateTasksCount v2 d) ∧
    (∀ v d1 d2 : ℚ, 0 < v → d1 ≤ d2 →
      calculateTasksCount v d2 ≤ calculateTasksCount v d1) ∧
    calculateOrderCost 1000000 24 = (15, 3 / 2, 45 / 2) := by
  refine ⟨fun v d => ⟨le_max_left _ _, ?_⟩, fun v1 v2 d h => ?_, fun v d1 d2 hv h => ?_, ?_⟩
  rotate_right
  · unfold calculateOrderCost calculateTasksCount getDurationFactor
    norm_num [Prod.ext_iff]
    have hc : (⌈(72 : ℚ) / 5⌉ : ℤ) = 15 := by
      rw [Int.ceil_eq_iff]
      norm_num
    rw [hc]
    rw [show ((15 : ℤ) : ℚ) * (3 / 2) * 100 = ((2250 : ℤ) : ℚ) by norm_num]
    norm_num [round_intCast]
  · show (round ((calculateTasksCount v d : ℚ) * (3 / 2) * 100) : ℚ) / 100 =
      (calculateTasksCount v d : ℚ) * (3 / 2)
    have h150 : (calculateTasksCount v d : ℚ) * (3 / 2) * 100 =
        ((150 * calculateTasksCount v d : ℤ) : ℚ) := by
      push_cast; ring
    rw [h150, round_intCast]
    push_cast; ring
  · unfold calculateTasksCount
    refine max_le_max (le_refl 1) (Int.ceil_le_ceil ?_)
    have hb : (⌈12 * (v1 / 1000000)⌉ : ℤ) ≤ ⌈12 * (v2 / 1000000)⌉ :=
      Int.ceil_le_ceil (by linarith)
    exact mul_le_mul_of_nonneg_right (by exact_mod_cast hb) (getDurationFactor_nonneg d)
  · unfold calculateTasksCount
    refine max_le_max (le_refl 1) (Int.ceil_le_ceil ?_)
    have hb : (0 : ℤ) ≤ ⌈12 * (v / 1000000)⌉ :=
      Int.ceil_nonneg (by positivity)
    exact mul_le_mul_of_nonneg_left (getDurationFactor_antitone d1 d2 h)
      (by exact_mod_cast hb)

/-- C9 witness: the monotonicity components of calculateOrderCost_spec
evaluated at concrete volumes and durations. -/
theorem calculateOrderCost_spec_witness :
    calculateTasksCount 1000000 24 ≤ calculateTasksCount 2000000 24 ∧
    calculateTasksCount 1000000 72 ≤ calculateTasksCount 1000000 24 := by
  refine ⟨calculateOrderCost_spec.2.1 1000000 2000000 24 (by norm_num),
    calculateOrderCost_spec.2.2.1 1000000 24 72 (by norm_num) (by norm_num)⟩

/-- C1 counterexample: with an empty trading wallet, a requirement of
0.1 SOL and a per-order budget of 0.01 SOL, the shortfall (100000000
lamports) exceeds the capped budget (5000000 lamports), yet
ensureTradingWalletFunded does not fail: it transfers the 5000000 lamport
cap and returns successfully, so no insufficient-budget error is raised. -/
theorem ensureTradingWalletFunded_overcap_transfers :
    ensureTradingWalletFunded "o1" (Address.generated 7) 0 100000000 10000000 =
      Except.ok [⟨opsBudgetAddress "o1", Address.generated 7, 5000000⟩] ∧
    100000000 - 0 > 10000000 - 5000000 := by
  exact ⟨rfl, by norm_num⟩

/-- C1 as amended: when the trading wallet balance is below the required
amount, ensureTradingWalletFunded fails with the insufficient-budget error
and performs no transfer exactly when the budget balance does not exceed
the 5000000 lamport reserve; whenever the budget balance exceeds the
reserve it transfers exactly min (shortfall, budgetBalance - reserve)
lamports from the per-order budget wallet, even when that amount is
smaller than the shortfall. -/
theorem ensureTradingWalletFunded_cap (orderId : String) (w : Address)
    (cur req budget : ℤ) (h : cur < req) :
    (budget ≤ 5000000 →
      ensureTradingWalletFunded orderId w cur req budget =
        Except.error "Insufficient per-order budget to fund trading wallet") ∧
    (5000000 < budget →
      ensureTradingWalletFunded orderId w cur req budget =
        Except.ok [⟨opsBudgetAddress orderId, w,
          ((min (req - cur) (budget - 5000000) : ℤ) : ℚ)⟩]) := by
  unfold ensureTradingWalletFunded
  rw [if_pos h]
  constructor
  · intro hb
    rw [if_pos ?_]
    have hmax : max (0 : ℤ) (budget - 5000000) = 0 := by omega
    rw [hmax]
    omega
  · intro hb
    rw [if_neg ?_]
    · have hmax : max (0 : ℤ) (budget - 5000000) = budget - 5000000 := by omega
      rw [hmax]
    · have hmax : max (0 : ℤ) (budget - 5000000) = budget - 5000000 := by omega
      rw [hmax]
      omega

/-- C1 witness: ensureTradingWalletFunded_cap applied with a 0.2 SOL
requirement, empty wallet and a 1 SOL budget: exactly the 0.2 SOL
shortfall is transferred. -/
theorem ensureTradingWalletFunded_cap_witness :
    (0 : ℤ) < 200000000 ∧
    ensureTradingWalletFunded "o1" (Address.generated 7) 0 200000000 1000000000 =
      Except.ok [⟨opsBudgetAddress "o1", Address.generated 7,
        ((min ((200000000 : ℤ) - 0) ((1000000000 : ℤ) - 5000000) : ℤ) : ℚ)⟩] :=
  ⟨by norm_num,
    (ensureTradingWalletFunded_cap "o1" (Address.generated 7) 0 200000000 1000000000
      (by norm_num)).2 (by norm_num)⟩

/-- A concrete running order used as the failing input for C3: one task,
standard parameters. -/
def orderC3 : VolumeOrder :=
  { id := "o1"
    status := OrderStatus.running
    volume_target := 1000000
    duration_hours := 24
    tasks_count := 1
    total_cost := 3 / 2
    payment_address := some (derivePaymentAddress "o1")
    payment_signature := none }

/-- C3. Evaluation at the failing input: createVolumeTasks stores a wallet
address produced by Keypair.generate (random entropy), and that stored
address is not the address of the trading keypair that
deriveTradingKeypair later derives for the task from the master secret and
the task id; the engine trades with the derived wallet, never with the
stored one. -/
theorem createVolumeTasks_random_wallet_bug :
    ((createVolumeTasks orderC3 (fun i => i)).map (fun t => t.wallet_address)) =
      [Address.generated 0] ∧
    deriveTradingKeypair "t1" ≠ Address.generated 0 := by
  exact ⟨by decide, by decide⟩

/-- C6 counterexample: the trading wallet holds 100 tokens and the task
history contains a buy (the tokens were acquired by it), but the most
recent recorded transaction is a sell (for example a failed sell), so the
next tick buys again instead of selling the held balance. -/
theorem chooseTickAction_holding_tokens_buys :
    (0 : ℚ) < 100 ∧
    TxType.buy ∈ [TxType.sell, TxType.buy] ∧
    chooseTickAction 100 ([TxType.sell, TxType.buy].head?) = TickAction.buyTrade := by
  decide

/-- C6 as amended: a due tick sells the full (floored) token balance
exactly when the wallet holds a positive token balance and the most recent
recorded transaction of the task is a buy; in every other case, in
particular when tokens are held but the most recent transaction is a sell,
the tick performs another buy. -/
theorem chooseTickAction_sell_iff (bal : ℚ) (lastTx : Option TxType)
    (h : 0 < bal) :
    (lastTx = some TxType.buy →
      chooseTickAction bal lastTx = TickAction.sellAll ⌊bal⌋) ∧
    (lastTx ≠ some TxType.buy →
      chooseTickAction bal lastTx = TickAction.buyTrade) := by
  constructor <;> intro hl <;> unfold chooseTickAction <;> simp [hl, h]

/-- C6 witness: chooseTickAction_sell_iff at balance 1 after a recorded
buy issues the sell of the full balance. -/
theorem chooseTickAction_sell_iff_witness :
    (0 : ℚ) < 1 ∧
    chooseTickAction 1 (some TxType.buy) = TickAction.sellAll ⌊(1 : ℚ)⌋ :=
  ⟨by norm_num, (chooseTickAction_sell_iff 1 (some TxType.buy) (by norm_num)).1 rfl⟩

/-- C7. Over scheduler ticks, cycles_completed is non-decreasing and never
exceeds total_cycles; a successful tick of a non-completed task increments
it by exactly 1 and a failed tick leaves it unchanged; the invariant that
a task has status completed exactly when cycles_completed equals
total_cycles is preserved by every tick and holds for every task produced
by createVolumeTasks. -/
theorem tickTask_monotone_inv (t : VolumeTask) (o : Option Bool)
    (h : TaskInv t) :
    TaskInv (tickTask t o) ∧
    t.cycles_completed ≤ (tickTask t o).cycles_completed ∧
    (tickTask t o).cycles_completed ≤ t.total_cycles ∧
    (o = some true → t.status ≠ TaskStatus.completed →
      (tickTask t o).cycles_completed = t.cycles_completed + 1) ∧
    (o = some false → (tickTask t o).cycles_completed = t.cycles_completed) ∧
    (∀ (order : VolumeOrder) (e : Nat → Nat),
      ∀ t' ∈ createVolumeTasks order e, TaskInv t') := by
  obtain ⟨hb, hiff⟩ := h
  have hcreate : ∀ (order : VolumeOrder) (e : Nat → Nat),
      ∀ t' ∈ createVolumeTasks order e, TaskInv t' := by
    intro order e t' ht'
    simp only [createVolumeTasks, List.mem_map, List.mem_range] at ht'
    obtain ⟨i, _, rfl⟩ := ht'
    exact ⟨by simp, by simp⟩
  cases o with
  | none =>
    exact ⟨⟨hb, hiff⟩, le_refl _, hb, fun hx => absurd hx (by simp),
      fun hx => absurd hx (by simp), hcreate⟩
  | some b =>
    by_cases hc : t.status = TaskStatus.completed
    · have ht : tickTask t (some b) = t := by simp [tickTask, hc]
      rw [ht]
      exact ⟨⟨hb, hiff⟩, le_refl _, hb, fun _ hne => absurd hc hne,
        fun _ => rfl, hcreate⟩
    · have hlt : t.cycles_completed < t.total_cycles :=
        lt_of_le_of_ne hb (fun he => hc (hiff.mpr he))
      cases b with
      | false =>
        have ht : tickTask t (some false) = { t with status := TaskStatus.failed } := by
          simp [tickTask, hc]
        rw [ht]
        refine ⟨⟨hb, ⟨fun hx => absurd hx (by simp),
            fun hx => absurd (show t.cycles_completed = t.total_cycles from hx)
              (by omega)⟩⟩,
          le_refl _, hb, fun hx => absurd hx (by simp), fun _ => rfl, hcreate⟩
      | true =>
        by_cases hn : t.total_cycles ≤ t.cycles_completed + 1
        · have ht : tickTask t (some true) = { t with
              cycles_completed := t.cycles_completed + 1
              current_volume := t.target_volume *
                (((t.cycles_completed + 1 : ℕ) : ℚ) / (t.total_cycles : ℚ))
              status := TaskStatus.completed } := by
            simp [tickTask, hc, hn]
          rw [ht]
          refine ⟨⟨?_, ⟨fun _ => show t.cycles_completed + 1 = t.total_cycles
              by omega, fun _ => rfl⟩⟩, ?_, ?_,
            fun _ _ => rfl, fun hx => absurd hx (by simp), hcreate⟩
          · show t.cycles_completed + 1 ≤ t.total_cycles
            omega
          · show t.cycles_completed ≤ t.cycles_completed + 1
            omega
          · show t.cycles_completed + 1 ≤ t.total_cycles
            omega
        · have ht : tickTask t (some true) = { t with
              cycles_completed := t.cycles_completed + 1
              current_volume := t.target_volume *
                (((t.cycles_completed + 1 : ℕ) : ℚ) / (t.total_cycles : ℚ))
              status := TaskStatus.running } := by
            simp [tickTask, hc, hn]
          rw [ht]
          refine ⟨⟨?_, ⟨fun hx => absurd hx (by simp),
            fun hx => absurd (show t.cycles_completed + 1 = t.total_cycles from hx)
              (by omega)⟩⟩, ?_, ?_,
            fun _ _ => rfl, fun hx => absurd hx (by simp), hcreate⟩
          · show t.cycles_completed + 1 ≤ t.total_cycles
            omega
          · show t.cycles_completed ≤ t.cycles_completed + 1
            omega
          · show t.cycles_completed + 1 ≤ t.total_cycles
            omega

/-- A concrete fresh task used to witness the C7 theorem. -/
def taskW : VolumeTask :=
  { order_id := "o1"
    wallet_address := Address.generated 0
    status := TaskStatus.pending
    target_volume := 1
    current_volume := 0
    interval_minutes := 1
    cycles_completed := 0
    total_cycles := 5 }

/-- C7 witness: tickTask_monotone_inv applied to a fresh pending task and
a successful tick. -/
theorem tickTask_monotone_inv_witness :
    TaskInv taskW ∧ TaskInv (tickTask taskW (some true)) ∧
    taskW.cycles_completed ≤ (tickTask taskW (some true)).cycles_completed :=
  ⟨by decide, (tickTask_monotone_inv taskW (some true) (by decide)).1,
    (tickTask_monotone_inv taskW (some true) (by decide)).2.1⟩

/-- If every task in the list is completed, forcing running tasks to
completed leaves a list in which every task is still completed. -/
theorem forceCompleteRunning_all_completed (ts : List VolumeTask)
    (h : ts.all (fun t => t.status = TaskStatus.completed) = true) :
    (forceCompleteRunning ts).all (fun t => t.status = TaskStatus.completed) = true := by
  unfold forceCompleteRunning
  rw [List.all_eq_true] at h ⊢
  intro t' ht'
  rw [List.mem_map] at ht'
  obtain ⟨t, ht, rfl⟩ := ht'
  have := h t ht
  simp only [decide_eq_true_eq] at this
  simp [this]

/-- C8. A scheduling pass moves a running order to completed exactly when
every one of its tasks is completed after the ticks of the pass, and the
orderCompleted flag it reports agrees with that transition. -/
theorem processOrderTasks_completion (order : VolumeOrder)
    (tasks : List VolumeTask) (e : Nat → Nat) (f : Nat → Option Bool)
    (h : order.status = OrderStatus.running) :
    ((processOrderTasks order tasks e f).1.status = OrderStatus.completed ↔
      (processOrderTasks order tasks e f).2.1.all
        (fun t => t.status = TaskStatus.completed) = true) ∧
    ((processOrderTasks order tasks e f).2.2 = true ↔
      (processOrderTasks order tasks e f).1.status = OrderStatus.completed) := by
  unfold processOrderTasks
  rw [if_neg (by simp [h])]
  dsimp only
  by_cases hall : ((if tasks.isEmpty then createVolumeTasks order e else tasks).mapIdx
      (fun i t => tickTask t (f i))).all (fun t => t.status = TaskStatus.completed) = true
  · rw [if_pos hall]
    exact ⟨⟨fun _ => forceCompleteRunning_all_completed _ hall, fun _ => rfl⟩,
      ⟨fun _ => rfl, fun _ => rfl⟩⟩
  · rw [if_neg hall]
    refine ⟨⟨fun hx => ?_, fun hx => absurd hx hall⟩,
      ⟨fun hx => absurd hx (by simp), fun hx => ?_⟩⟩
    · rw [h] at hx
      exact absurd hx (by simp)
    · rw [h] at hx
      exact absurd hx (by simp)

/-- A concrete running order with two tasks used to witness C8. -/
def orderW : VolumeOrder :=
  { id := "o2"
    status := OrderStatus.running
    volume_target := 1000000
    duration_hours := 24
    tasks_count := 2
    total_cost := 3
    payment_address := some (derivePaymentAddress "o2")
    payment_signature := none }

/-- A nearly finished running task, the concrete task for the C8 witness. -/
def taskW4 : VolumeTask :=
  { taskW with cycles_completed := 4, status := TaskStatus.running }

/-- C8 witness: processOrderTasks_completion applied to a running order
with one almost-finished task that succeeds on this pass. -/
theorem processOrderTasks_completion_witness :
    ((processOrderTasks orderW [taskW4] (fun i => i)
        (fun _ => some true)).1.status = OrderStatus.completed ↔
      (processOrderTasks orderW [taskW4] (fun i => i)
        (fun _ => some true)).2.1.all
          (fun t => t.status = TaskStatus.completed) = true) :=
  (processOrderTasks_completion orderW [taskW4]
    (fun i => i) (fun _ => some true) rfl).1

/-- C10. A scheduling pass over a running order whose stored task list is
empty and whose tasks_count is 0 creates zero tasks and immediately
transitions the order to completed with the vacuous all-tasks-completed
check, reporting the order as completed. -/
theorem processOrderTasks_zero_tasks (order : VolumeOrder)
    (e : Nat → Nat) (f : Nat → Option Bool)
    (h1 : order.status = OrderStatus.running) (h2 : order.tasks_count = 0) :
    processOrderTasks order [] e f =
      ({ order with status := OrderStatus.completed }, [], true) := by
  have hc : createVolumeTasks order e = [] := by
    unfold createVolumeTasks
    rw [h2]
    rfl
  unfold processOrderTasks
  rw [if_neg (by simp [h1])]
  simp [hc, forceCompleteRunning]

/-- A running order with tasks_count 0, the concrete input for the C10
witness. -/
def orderZ : VolumeOrder :=
  { id := "o3"
    status := OrderStatus.running
    volume_target := 0
    duration_hours := 24
    tasks_count := 0
    total_cost := 0
    payment_address := some (derivePaymentAddress "o3")
    payment_signature := none }

/-- C10 witness: processOrderTasks_zero_tasks at the concrete zero-task
running order. -/
theorem processOrderTasks_zero_tasks_witness :
    processOrderTasks orderZ [] (fun i => i) (fun _ => none) =
      ({ orderZ with status := OrderStatus.completed }, [], true) :=
  processOrderTasks_zero_tasks orderZ (fun i => i) (fun _ => none) rfl rfl

/-- Structure of a successful sweep: both treasury addresses were
configured, both legs succeeded, the two transfers are the fee leg to the
configured fees treasury and the remainder leg to the configured
operations treasury, and the updated order row carries the two-signature
receipt and the payment_confirmed status. -/
theorem sweepOrderPayment_swept_shape (env : SweepEnv) (order o' : VolumeOrder)
    (ts : List Transfer)
    (h : sweepOrderPayment env order = SweepResult.swept o' ts) :
    ∃ payAddr feesAddr opsAddr feesSig opsSig,
      resolvePaymentKeypair order = some payAddr ∧
      env.treasuryFeesAddr = some feesAddr ∧
      env.treasuryOpsAddr = some opsAddr ∧
      env.feesLeg = Except.ok feesSig ∧
      env.opsLeg = Except.ok opsSig ∧
      ts = [⟨payAddr, feesAddr, (⌊env.balance * (env.feeBps.getD 500 / 10000)⌋ : ℚ)⟩,
            ⟨payAddr, opsAddr,
              env.balance - (⌊env.balance * (env.feeBps.getD 500 / 10000)⌋ : ℚ) - 10000⟩] ∧
      o' = { order with
        status := OrderStatus.paymentConfirmed
        payment_signature := some ("fees:" ++ feesSig ++ ",ops:" ++ opsSig) } := by
  unfold sweepOrderPayment at h
  dsimp only at h
  split at h
  · exact absurd h (by simp)
  · split at h
    · exact absurd h (by simp)
    · split at h
      · exact absurd h (by simp)
      · rename_i payAddr hres
        split at h
        · exact absurd h (by simp)
        · split at h
          · exact absurd h (by simp)
          · split at h
            · exact absurd h (by simp)
            · rename_i feesAddr hfees
              split at h
              · exact absurd h (by simp)
              · rename_i feesSig hfeesOk
                split at h
                · exact absurd h (by simp)
                · rename_i opsAddr hops
                  split at h
                  · exact absurd h (by simp)
                  · rename_i opsSig hopsOk
                    obtain ⟨ho, hts⟩ := SweepResult.swept.inj h
                    exact ⟨payAddr, feesAddr, opsAddr, feesSig, opsSig,
                      hres, hfees, hops, hfeesOk, hopsOk, hts.symm, ho.symm⟩

/-- In every throwing path of sweepOrderPayment the order row is returned
unchanged: the receipt update only happens after both legs succeed. -/
theorem sweepOrderPayment_failed_unchanged (env : SweepEnv)
    (order o2 : VolumeOrder) (e : String) (ts : List Transfer)
    (h : sweepOrderPayment env order = SweepResult.failed e o2 ts) :
    o2 = order := by
  unfold sweepOrderPayment at h
  dsimp only at h
  split at h
  · exact absurd h (by simp)
  · split at h
    · exact absurd h (by simp)
    · split at h
      · exact absurd h (by simp)
      · split at h
        · exact absurd h (by simp)
        · split at h
          · exact absurd h (by simp)
          · split at h
            · exact (SweepResult.failed.inj h).2.1.symm
            · split at h
              · exact (SweepResult.failed.inj h).2.1.symm
              · split at h
                · exact (SweepResult.failed.inj h).2.1.symm
                · split at h
                  · exact (SweepResult.failed.inj h).2.1.symm
                  · exact absurd h (by simp)

/-- An order whose stored receipt starts with the fees: marker is skipped
by sweepOrderPayment before any balance check or transfer. -/
theorem sweepOrderPayment_marker_skip (env : SweepEnv) (order : VolumeOrder)
    (rest : String) (hsig : order.payment_signature = some ("fees:" ++ rest)) :
    sweepOrderPayment env order = SweepResult.skipped order := by
  unfold sweepOrderPayment
  rw [hsig]
  simp [containsSub_of_append]

/-- Environment for a fully successful sweep of the concrete order: both
treasuries configured, default fee rate and threshold, a 1.5 SOL balance,
both legs succeeding. -/
def envBoth : SweepEnv :=
  { treasuryFeesAddr := some treasuryFeesDerived
    treasuryOpsAddr := some treasuryOpsDerived
    feeBps := none
    minSweepLamports := none
    balance := 1500000000
    feesLeg := Except.ok "F1"
    opsLeg := Except.ok "G1" }

/-- Environment identical to envBoth except that the operations leg
transaction fails. -/
def envOpsFail : SweepEnv :=
  { envBoth with opsLeg := Except.error "boom" }

/-- A concrete funded order awaiting sweep: 1.5 SOL expected, derived
payment address stored, no receipt yet. -/
def ordC : VolumeOrder :=
  { id := "o1"
    status := OrderStatus.pendingPayment
    volume_target := 1000000
    duration_hours := 24
    tasks_count := 15
    total_cost := 3 / 2
    payment_address := some (derivePaymentAddress "o1")
    payment_signature := none }

/-- The order row after a successful sweep of ordC. -/
def ordCSwept : VolumeOrder :=
  { ordC with
    status := OrderStatus.paymentConfirmed
    payment_signature := some "fees:F1,ops:G1" }

/-- Concrete evaluation: sweeping ordC under envBoth performs the 5
percent fee leg of 75000000 lamports to the configured fees treasury and
the remainder leg of 1424990000 lamports to the configured global
operations treasury, then records the two-signature receipt. -/
theorem sweepBoth_eval :
    sweepOrderPayment envBoth ordC = SweepResult.swept ordCSwept
      [⟨derivePaymentAddress "o1", treasuryFeesDerived, 75000000⟩,
       ⟨derivePaymentAddress "o1", treasuryOpsDerived, 1424990000⟩] := by
  have hexp : (⌊(3 / 2 : ℚ) * 1000000000⌋ : ℤ) = 1500000000 := by
    rw [show (3 / 2 : ℚ) * 1000000000 = ((1500000000 : ℤ) : ℚ) by norm_num]
    exact Int.floor_intCast _
  have hfee : (⌊(1500000000 : ℚ) * (500 / 10000)⌋ : ℤ) = 75000000 := by
    rw [show (1500000000 : ℚ) * (500 / 10000) = ((75000000 : ℤ) : ℚ) by norm_num]
    exact Int.floor_intCast _
  have hstat : ¬(OrderStatus.pendingPayment = OrderStatus.completed ∨
      OrderStatus.pendingPayment = OrderStatus.cancelled ∨
      OrderStatus.pendingPayment = OrderStatus.failed) := by simp
  unfold sweepOrderPayment envBoth ordC ordCSwept
  dsimp only
  norm_num [resolvePaymentKeypair, derivePaymentAddress, containsSub, hexp, hfee, hstat]
  exact ⟨rfl, rfl, rfl, rfl, rfl, rfl, rfl⟩

/-- Concrete evaluation: sweeping ordC when the operations leg fails sends
only the fees leg, throws, and leaves the order row (and in particular the
empty receipt) unchanged. -/
theorem sweepOpsFail_eval :
    sweepOrderPayment envOpsFail ordC = SweepResult.failed "boom" ordC
      [⟨derivePaymentAddress "o1", treasuryFeesDerived, 75000000⟩] := by
  have hexp : (⌊(3 / 2 : ℚ) * 1000000000⌋ : ℤ) = 1500000000 := by
    rw [show (3 / 2 : ℚ) * 1000000000 = ((1500000000 : ℤ) : ℚ) by norm_num]
    exact Int.floor_intCast _
  have hfee : (⌊(1500000000 : ℚ) * (500 / 10000)⌋ : ℤ) = 75000000 := by
    rw [show (1500000000 : ℚ) * (500 / 10000) = ((75000000 : ℤ) : ℚ) by norm_num]
    exact Int.floor_intCast _
  have hstat : ¬(OrderStatus.pendingPayment = OrderStatus.completed ∨
      OrderStatus.pendingPayment = OrderStatus.cancelled ∨
      OrderStatus.pendingPayment = OrderStatus.failed) := by simp
  unfold sweepOrderPayment envOpsFail envBoth ordC
  dsimp only
  norm_num [resolvePaymentKeypair, derivePaymentAddress, containsSub, hexp, hfee, hstat]

/-- C2 counterexample: on the concrete funded order the sweep issues its
second transfer to the configured global operations treasury address, and
that address differs from the per-order operations budget address derived
from (order id, ops-budget); the opsAmount therefore does not go to the
per-order budget. -/
theorem sweepOrderPayment_ops_to_global_cex :
    sweepOrderPayment envBoth ordC = SweepResult.swept ordCSwept
      [⟨derivePaymentAddress "o1", treasuryFeesDerived, 75000000⟩,
       ⟨derivePaymentAddress "o1", treasuryOpsDerived, 1424990000⟩] ∧
    treasuryOpsDerived ≠ opsBudgetAddress "o1" :=
  ⟨sweepBoth_eval, by decide⟩

/-- C2 as amended: every successful sweep sends the serviceFee leg to the
configured global fees treasury address and the opsAmount leg to the
configured global operations treasury address (not to the per-order
operations budget address). -/
theorem sweepOrderPayment_sends_to_configured_treasuries (env : SweepEnv)
    (order o' : VolumeOrder) (ts : List Transfer)
    (h : sweepOrderPayment env order = SweepResult.swept o' ts) :
    ∃ payAddr feesAddr opsAddr,
      env.treasuryFeesAddr = some feesAddr ∧
      env.treasuryOpsAddr = some opsAddr ∧
      ts = [⟨payAddr, feesAddr, (⌊env.balance * (env.feeBps.getD 500 / 10000)⌋ : ℚ)⟩,
            ⟨payAddr, opsAddr,
              env.balance - (⌊env.balance * (env.feeBps.getD 500 / 10000)⌋ : ℚ) - 10000⟩] := by
  obtain ⟨p, fa, oa, fs, os, _, hf, ho, _, _, hts, _⟩ :=
    sweepOrderPayment_swept_shape env order o' ts h
  exact ⟨p, fa, oa, hf, ho, hts⟩

/-- C2 witness: sweepOrderPayment_sends_to_configured_treasuries at the
concrete successful sweep of ordC. -/
theorem sweepOrderPayment_sends_to_configured_treasuries_witness :
    ∃ payAddr feesAddr opsAddr,
      envBoth.treasuryFeesAddr = some feesAddr ∧
      envBoth.treasuryOpsAddr = some opsAddr ∧
      ([⟨derivePaymentAddress "o1", treasuryFeesDerived, 75000000⟩,
        ⟨derivePaymentAddress "o1", treasuryOpsDerived, 1424990000⟩] : List Transfer) =
        [⟨payAddr, feesAddr,
          (⌊envBoth.balance * (envBoth.feeBps.getD 500 / 10000)⌋ : ℚ)⟩,
         ⟨payAddr, opsAddr,
          envBoth.balance -
            (⌊envBoth.balance * (envBoth.feeBps.getD 500 / 10000)⌋ : ℚ) - 10000⟩] :=
  sweepOrderPayment_sends_to_configured_treasuries envBoth ordC ordCSwept
    [⟨derivePaymentAddress "o1", treasuryFeesDerived, 75000000⟩,
     ⟨derivePaymentAddress "o1", treasuryOpsDerived, 1424990000⟩] sweepBoth_eval

/-- C4. Idempotent sweep: a successful sweep writes the fees: receipt
marker into payment_signature, and invoking sweepOrderPayment again on the
updated order under any environment is a no-op: it is skipped by the
marker guard, performs zero transfers and returns false. -/
theorem sweepOrderPayment_idempotent (env env' : SweepEnv)
    (order o' : VolumeOrder) (ts : List Transfer)
    (h : sweepOrderPayment env order = SweepResult.swept o' ts) :
    sweepOrderPayment env' o' = SweepResult.skipped o' ∧
    sweepTransfers (sweepOrderPayment env' o') = [] ∧
    sweepReturnedTrue (sweepOrderPayment env' o') = false := by
  obtain ⟨p, fa, oa, fs, os, _, _, _, _, _, _, ho⟩ :=
    sweepOrderPayment_swept_shape env order o' ts h
  have hsig : o'.payment_signature = some ("fees:" ++ (fs ++ (",ops:" ++ os))) := by
    rw [ho]
    show some ("fees:" ++ fs ++ ",ops:" ++ os) = _
    rw [String.append_assoc, String.append_assoc]
  have hskip := sweepOrderPayment_marker_skip env' o' _ hsig
  exact ⟨hskip, by rw [hskip]; rfl, by rw [hskip]; rfl⟩

/-- C4 witness: sweepOrderPayment_idempotent at the concrete successful
sweep of ordC: the re-run on the swept row is skipped. -/
theorem sweepOrderPayment_idempotent_witness :
    sweepOrderPayment envBoth ordCSwept = SweepResult.skipped ordCSwept ∧
    sweepTransfers (sweepOrderPayment envBoth ordCSwept) = [] ∧
    sweepReturnedTrue (sweepOrderPayment envBoth ordCSwept) = false :=
  sweepOrderPayment_idempotent envBoth envBoth ordC ordCSwept
    [⟨derivePaymentAddress "o1", treasuryFeesDerived, 75000000⟩,
     ⟨derivePaymentAddress "o1", treasuryOpsDerived, 1424990000⟩] sweepBoth_eval

/-- C5 counterexample: on the concrete order, when the fees leg succeeds
and the operations leg fails, the receipt is not updated at all (the order
row still carries no payment_signature, so the successful fees leg is not
recorded), and the retry pass on that unchanged order resends both legs,
fees leg included, rather than only the missing operations leg. -/
theorem sweepOrderPayment_partial_leg_cex :
    sweepOrderPayment envOpsFail ordC = SweepResult.failed "boom" ordC
      [⟨derivePaymentAddress "o1", treasuryFeesDerived, 75000000⟩] ∧
    ordC.payment_signature = none ∧
    sweepTransfers (sweepOrderPayment envBoth ordC) =
      [⟨derivePaymentAddress "o1", treasuryFeesDerived, 75000000⟩,
       ⟨derivePaymentAddress "o1", treasuryOpsDerived, 1424990000⟩] :=
  ⟨sweepOpsFail_eval, rfl, by rw [sweepBoth_eval]; rfl⟩

/-- C5 as amended: when either transfer leg of the sweep fails the order
row, and in particular its stored receipt, is left unchanged (no marker
for the successful leg is recorded), and a subsequent pass that succeeds
on the same order performs two transfers again, resending both legs
rather than only the missing one. -/
theorem sweepOrderPayment_leg_failure_retry (env env' : SweepEnv)
    (order o2 o'' : VolumeOrder) (e : String) (ts ts' : List Transfer)
    (h : sweepOrderPayment env order = SweepResult.failed e o2 ts)
    (h2 : sweepOrderPayment env' order = SweepResult.swept o'' ts') :
    o2 = order ∧ ts'.length = 2 := by
  refine ⟨sweepOrderPayment_failed_unchanged env order o2 e ts h, ?_⟩
  obtain ⟨p, fa, oa, fs, os, _, _, _, _, _, hts, _⟩ :=
    sweepOrderPayment_swept_shape env' order o'' ts' h2
  rw [hts]
  rfl

/-- C5 witness: sweepOrderPayment_leg_failure_retry at the concrete
partial failure followed by the successful retry. -/
theorem sweepOrderPayment_leg_failure_retry_witness :
    ordC = ordC ∧
    ([⟨derivePaymentAddress "o1", treasuryFeesDerived, (75000000 : ℚ)⟩,
      ⟨derivePaymentAddress "o1", treasuryOpsDerived, 1424990000⟩] : List Transfer).length = 2 :=
  sweepOrderPayment_leg_failure_retry envOpsFail envBoth ordC ordC ordCSwept "boom"
    [⟨derivePaymentAddress "o1", treasuryFeesDerived, 75000000⟩]
    [⟨derivePaymentAddress "o1", treasuryFeesDerived, 75000000⟩,
     ⟨derivePaymentAddress "o1", treasuryOpsDerived, 1424990000⟩]
    sweepOpsFail_eval sweepBoth_eval

end PriceGoUpBot
